import Mathlib

attribute [local semireducible] Rat.mul Rat.inv Rat.add Rat.sub

/-!
Shallow embedding of the breast-cancer diagnosis HTTP service
(`src/api/app.py`) together with its startup artifact loader.

Modelling conventions:
* Python floats arriving in JSON payloads are modelled by `PyNum`: either a
  finite rational or one of the non-finite values NaN / +Infinity / -Infinity
  (Python's `json` parser accepts the `NaN` / `Infinity` literals).
* `flask.request.get_json()` is modelled as an `Option JsonValue`: `none`
  when the request body is missing or not parseable as JSON, `some j`
  otherwise.  The handler then applies Python truthiness (`if not json_data`).
* pydantic validation of `PredictionInput` (`features: List[float]`) is
  modelled as: the payload object must carry a `features` entry whose value
  is a JSON array all of whose elements coerce to `float` under pydantic
  v2 lax mode (the `json_schema_extra` config name in the source is the
  pydantic-v2 spelling).  Lax coercion accepts numbers and numeric strings
  (`pyParseFloat`, covering decimal and scientific notation and the
  inf/infinity/nan spellings, with surrounding whitespace trimmed); it
  rejects booleans, null and containers — v2 does not coerce `bool` to
  `float`.  Digit-group underscores are not modelled.  `e.errors()` is
  abstracted to a non-empty list of per-field message strings.
* The fitted scaler and the trained classifier are opaque library objects;
  they are modelled as abstract functions.  sklearn's documented contract
  for a binary classifier (class in {0,1}, probability pair in [0,1] summing
  to 1) is the separate predicate `Classifier.WF`.
* `round(x, 4)` is Python's round-half-to-even, modelled exactly on ℚ by
  `pyRound` / `round4`.
-/

/-- A Python float as obtained from a parsed JSON number: a finite rational
or one of the non-finite IEEE values. -/
inductive PyNum where
  | nan : PyNum
  | posInf : PyNum
  | negInf : PyNum
  | fin : ℚ → PyNum
deriving DecidableEq

/-- `np.isnan(x) or np.isinf(x)` is false exactly on finite values. -/
def PyNum.isFinite : PyNum → Bool
  | .fin _ => true
  | _ => false

/-- Numeric value of a finite `PyNum` (only used after the finiteness check). -/
def PyNum.toRat : PyNum → ℚ
  | .fin q => q
  | _ => 0

/-- Python truthiness of a float: `0.0` is falsy, every other float —
including NaN and the infinities — is truthy. -/
def PyNum.truthy : PyNum → Bool
  | .fin q => decide (q ≠ 0)
  | _ => true

/-- A parsed JSON value as Python's `json` module produces it. -/
inductive JsonValue where
  | null : JsonValue
  | bool : Bool → JsonValue
  | num : PyNum → JsonValue
  | str : String → JsonValue
  | arr : List JsonValue → JsonValue
  | obj : List (String × JsonValue) → JsonValue

/-- Python truthiness of a JSON value (`if not json_data`). -/
def jsonTruthy : JsonValue → Bool
  | .null => false
  | .bool b => b
  | .num n => n.truthy
  | .str s => !s.isEmpty
  | .arr l => !l.isEmpty
  | .obj l => !l.isEmpty

/-- Lookup in a JSON object; Python's `json` keeps the last occurrence of a
duplicated key. -/
def lookupLast (k : String) (fields : List (String × JsonValue)) :
    Option JsonValue :=
  fields.foldl (fun acc p => if p.1 = k then some p.2 else acc) none

/-- Whitespace as trimmed off numeric strings before float parsing. -/
def wsChar (c : Char) : Bool :=
  c = ' ' || c = '\t' || c = '\n' || c = '\r'

/-- Strip surrounding whitespace from a character list. -/
def stripWS (cs : List Char) : List Char :=
  ((cs.dropWhile wsChar).reverse.dropWhile wsChar).reverse

/-- ASCII lower-casing (enough for `E`, `INF`, `NAN` spellings). -/
def lowerAsciiChar (c : Char) : Char :=
  if 'A' ≤ c ∧ c ≤ 'Z' then Char.ofNat (c.toNat + 32) else c

/-- Split a character list at the first occurrence of `c`: the part before
it, and — when `c` occurs — the part after it. -/
def splitFirst (c : Char) : List Char → List Char × Option (List Char)
  | [] => ([], none)
  | x :: xs =>
    if x = c then ([], some xs)
    else
      let (a, b) := splitFirst c xs
      (x :: a, b)

/-- An optional leading sign: whether the value is negated, and the rest. -/
def readSign : List Char → Bool × List Char
  | '-' :: rest => (true, rest)
  | '+' :: rest => (false, rest)
  | cs => (false, cs)

/-- Value of a digit string. -/
def digitsVal (cs : List Char) : Nat :=
  cs.foldl (fun a c => a * 10 + (c.toNat - 48)) 0

/-- pydantic v2's lax string-to-float coercion, i.e. parsing a Python float
literal: surrounding whitespace trimmed, optional sign, decimal or
scientific notation (`17.99`, `1.`, `.5`, `1e-3`), and the case-insensitive
`inf` / `infinity` / `nan` spellings.  Digit-group underscores are not
modelled. -/
def pyParseFloat (s : String) : Option PyNum :=
  let cs := (stripWS s.data).map lowerAsciiChar
  let (neg, body) := readSign cs
  if body = ['i', 'n', 'f'] ∨ body = ['i', 'n', 'f', 'i', 'n', 'i', 't', 'y'] then
    some (if neg then .negInf else .posInf)
  else if body = ['n', 'a', 'n'] then
    some .nan
  else
    let (mant, expPart) := splitFirst 'e' body
    let (ip, fpOpt) := splitFirst '.' mant
    let fp := fpOpt.getD []
    if (ip ≠ [] ∨ fp ≠ []) ∧ ip.all Char.isDigit ∧ fp.all Char.isDigit then
      let n := digitsVal (ip ++ fp)
      let flen := fp.length
      match expPart with
      | none =>
        some (.fin (mkRat (if neg then -(n : ℤ) else (n : ℤ)) (10 ^ flen)))
      | some ex =>
        let (eneg, ed) := readSign ex
        if ed ≠ [] ∧ ed.all Char.isDigit then
          let e := digitsVal ed
          if eneg then
            some (.fin (mkRat (if neg then -(n : ℤ) else (n : ℤ))
              (10 ^ (flen + e))))
          else
            some (.fin (mkRat
              (if neg then -((n * 10 ^ e : ℕ) : ℤ) else ((n * 10 ^ e : ℕ) : ℤ))
              (10 ^ flen)))
        else none
    else none

/-- pydantic v2 lax coercion of a JSON value to `float`: numbers pass
through unchanged, strings are parsed as Python float literals; booleans,
null and containers are rejected (v2 does not coerce `bool` to `float`). -/
def coerceFloat : JsonValue → Option PyNum
  | .num n => some n
  | .str s => pyParseFloat s
  | _ => none

/-- Per-element messages of a pydantic `ValidationError` for the elements of
`features` (counting from index `i`) that do not coerce to `float`. -/
def elemErrorsFrom (i : Nat) : List JsonValue → List String
  | [] => []
  | x :: xs =>
    if (coerceFloat x).isSome then elemErrorsFrom (i + 1) xs
    else ("features." ++ toString i ++ ": Input should be a valid number")
      :: elemErrorsFrom (i + 1) xs

/-- Per-element messages of a pydantic `ValidationError` for the elements of
`features` that do not coerce to `float`. -/
def elemErrors (items : List JsonValue) : List String := elemErrorsFrom 0 items

/-- pydantic construction `PredictionInput(**json_data)`: the object must
have a `features` entry holding a list of values that lax-coerce to
`float`; otherwise a `ValidationError` with structured per-field details is
raised. -/
def pydanticValidate (fields : List (String × JsonValue)) :
    Except (List String) (List PyNum) :=
  match lookupLast "features" fields with
  | none => .error ["features: Field required"]
  | some (.arr items) =>
      if items.all (fun x => (coerceFloat x).isSome) then
        .ok (items.filterMap coerceFloat)
      else .error (elemErrors items)
  | some _ => .error ["features: Input should be a valid list"]

/-- The side-car metadata record `model_metadata.json`; `.get` with a default
is modelled by `Option`. -/
structure Metadata where
  accuracy : Option ℚ
  feature_count : Option Nat
deriving DecidableEq

/-- The fitted `StandardScaler`: an opaque deterministic transform on a
single-row matrix. -/
structure Scaler where
  transform : List ℚ → List ℚ

/-- The trained binary classifier: `predict` (as `int(prediction[0])`) and
`predict_proba` (the row `[P(class=0), P(class=1)]`). -/
structure Classifier where
  predictCls : List ℚ → ℤ
  predictProba : List ℚ → ℚ × ℚ

/-- sklearn's contract for a fitted binary classifier: the predicted class
is 0 or 1 and `predict_proba` yields a nonnegative pair summing to 1. -/
def Classifier.WF (c : Classifier) : Prop :=
  ∀ x : List ℚ, (c.predictCls x = 0 ∨ c.predictCls x = 1) ∧
    0 ≤ (c.predictProba x).1 ∧ 0 ≤ (c.predictProba x).2 ∧
    (c.predictProba x).1 + (c.predictProba x).2 = 1

/-- The process-wide globals set at startup: `model_loaded`, `model`,
`scaler`, `model_metadata`. -/
structure ServiceState where
  model_loaded : Bool
  model_metadata : Metadata
  scaler : Scaler
  model : Classifier

/-- Python's `round` to an integer: round half to even, written on the
numerator/denominator of the exact rational (`f` is `⌊q⌋`, and `2*r`
against `den` compares the fractional part against `1/2`). -/
def pyRound (q : ℚ) : ℤ :=
  let f := q.num / (q.den : ℤ)
  let r := q.num % (q.den : ℤ)
  if 2 * r < (q.den : ℤ) then f
  else if (q.den : ℤ) < 2 * r then f + 1
  else if f % 2 = 0 then f else f + 1

/-- `round(x, 4)`: round to 4 decimal places. -/
def round4 (q : ℚ) : ℚ := (pyRound (q * 10000) : ℚ) / 10000

/-- A response body as produced by the handler's `jsonify` calls. -/
inductive RespBody where
  | mkError : String → RespBody
  | mkErrorDetails : String → List String → RespBody
  | result (prediction : String) (confBenigno : ℚ) (confMaligno : ℚ)
      (prediction_numeric : ℤ) : RespBody
deriving DecidableEq

/-- Body of the health-check response; `model_accuracy = none` serialises as
the string "N/A". -/
structure HealthBody where
  status : String
  message : String
  model_loaded : Bool
  model_accuracy : Option ℚ
deriving DecidableEq

/-- `GET /` handler (`health_check`, app.py lines 91-101). -/
def health_check (st : ServiceState) : HealthBody × Nat :=
  ({ status := if st.model_loaded then "ok" else "degraded",
     message := "API de diagnóstico de cáncer de mama",
     model_loaded := st.model_loaded,
     model_accuracy := st.model_metadata.accuracy },
   if st.model_loaded then 200 else 503)

/-- `PredictionInput.validate_features` (app.py lines 77-85): length against
`feature_count` (default 30), then finiteness; returns the `ValueError`
message if any. -/
def validate_features (st : ServiceState) (features : List PyNum) :
    Option String :=
  let expected_count := st.model_metadata.feature_count.getD 30
  if features.length ≠ expected_count then
    some ("Se esperaban " ++ toString expected_count ++
          " features, recibidas " ++ toString features.length)
  else if features.any (fun x => !x.isFinite) then
    some "Features contienen valores inválidos"
  else none

/-- Lines 119-136 of app.py: scale the validated vector, run the classifier,
and shape the success response. -/
def formatResult (st : ServiceState) (features : List PyNum) :
    RespBody × Nat :=
  let data_scaled := st.scaler.transform (features.map PyNum.toRat)
  let prediction := st.model.predictCls data_scaled
  let proba := st.model.predictProba data_scaled
  (.result (if prediction = 1 then "Maligno" else "Benigno")
    (round4 proba.1) (round4 proba.2) prediction, 200)

/-- `POST /predict` handler (app.py lines 103-146).  A truthy non-object
payload makes `PredictionInput(**json_data)` raise `TypeError`, caught by
the generic handler as a 500. -/
def predict (st : ServiceState) (body : Option JsonValue) : RespBody × Nat :=
  if !st.model_loaded then (.mkError "Modelo no disponible", 503)
  else
    match body with
    | none => (.mkError "No se proporcionaron datos JSON", 400)
    | some json_data =>
      if !jsonTruthy json_data then
        (.mkError "No se proporcionaron datos JSON", 400)
      else
        match json_data with
        | .obj fields =>
          match pydanticValidate fields with
          | .error details => (.mkErrorDetails "Datos inválidos" details, 422)
          | .ok features =>
            match validate_features st features with
            | some msg => (.mkError msg, 400)
            | none => formatResult st features
        | _ => (.mkError "Error interno del servidor", 500)

/-- Outcome of a single attempt to load the three artifact files: `joblib`
deserialisation of classifier and scaler may fail (`none`), the metadata
file may be absent (`none`) or present but unparseable (`some none`). -/
structure ArtifactEnv where
  modelFile : Option Classifier
  scalerFile : Option Scaler
  metadataFile : Option (Option Metadata)

/-- The globals after `load_model_artifacts` ran, plus its return value. -/
structure LoadOutcome where
  loaded : Bool
  model : Option Classifier
  scaler : Option Scaler
  model_metadata : Metadata

def emptyMetadata : Metadata := { accuracy := none, feature_count := none }

/-- `load_model_artifacts` (app.py lines 22-57): sequentially load model,
scaler, then — only if the file exists — parse metadata; any exception in
the `try` block yields `False`, and globals keep the values assigned so
far (`model_metadata` starts as `{}`). -/
def load_model_artifacts (env : ArtifactEnv) : LoadOutcome :=
  match env.modelFile with
  | none => { loaded := false, model := none, scaler := none,
              model_metadata := emptyMetadata }
  | some m =>
    match env.scalerFile with
    | none => { loaded := false, model := some m, scaler := none,
                model_metadata := emptyMetadata }
    | some s =>
      match env.metadataFile with
      | none => { loaded := true, model := some m, scaler := some s,
                  model_metadata := emptyMetadata }
      | some none => { loaded := false, model := some m, scaler := some s,
                       model_metadata := emptyMetadata }
      | some (some md) => { loaded := true, model := some m, scaler := some s,
                            model_metadata := md }

/-! ### Helper lemmas about rounding -/

theorem pyRound_nonneg (q : ℚ) (h : 0 ≤ q) : 0 ≤ pyRound q := by
  have hnum : 0 ≤ q.num := Rat.num_nonneg.mpr h
  have hf : 0 ≤ q.num / (q.den : ℤ) :=
    Int.ediv_nonneg hnum (Int.natCast_nonneg _)
  unfold pyRound
  dsimp only
  split
  · exact hf
  · split
    · omega
    · split <;> omega

theorem pyRound_le_of_le (q : ℚ) (n : ℤ) (h : q ≤ (n : ℚ)) : pyRound q ≤ n := by
  set d : ℤ := (q.den : ℤ) with hd_def
  have hd : 0 < d := by
    simp only [hd_def]
    exact_mod_cast q.den_pos
  have key : q.num ≤ n * d := by
    have := Rat.le_def.mp h
    simpa [Rat.num_intCast, Rat.den_intCast] using this
  have hdiv : d * (q.num / d) + q.num % d = q.num := Int.ediv_add_emod q.num d
  have hr0 : 0 ≤ q.num % d := Int.emod_nonneg q.num (by omega)
  have hrd : q.num % d < d := Int.emod_lt_of_pos q.num hd
  set f : ℤ := q.num / d with hf_def
  set r : ℤ := q.num % d with hr_def
  have hfn : f ≤ n := by
    have h1 : d * f ≤ n * d := by omega
    have h2 : d * f ≤ d * n := by linarith [h1]
    exact le_of_mul_le_mul_left h2 hd
  have hfn1 : d ≤ 2 * r → f + 1 ≤ n := by
    intro hge
    have h1 : d * (2 * f + 1) ≤ 2 * q.num := by nlinarith
    have h2 : 2 * q.num ≤ d * (2 * n) := by nlinarith
    have h3 : 2 * f + 1 ≤ 2 * n := le_of_mul_le_mul_left (h1.trans h2) hd
    omega
  unfold pyRound
  rw [← hd_def, ← hf_def, ← hr_def]
  dsimp only
  split
  · exact hfn
  · next hge =>
    split
    · exact hfn1 (by omega)
    · split
      · exact hfn
      · exact hfn1 (by omega)

theorem round4_nonneg (q : ℚ) (h : 0 ≤ q) : 0 ≤ round4 q := by
  unfold round4
  have : 0 ≤ pyRound (q * 10000) := pyRound_nonneg _ (by positivity)
  positivity

theorem round4_le_one (q : ℚ) (h : q ≤ 1) : round4 q ≤ 1 := by
  unfold round4
  have hk : pyRound (q * 10000) ≤ 10000 := by
    apply pyRound_le_of_le
    push_cast
    linarith
  rw [div_le_one (by norm_num)]
  exact_mod_cast hk

theorem round4_four_decimals (q : ℚ) : ∃ k : ℤ, round4 q = (k : ℚ) / 10000 :=
  ⟨pyRound (q * 10000), rfl⟩

/-! ### Helper lemmas about the modelled pydantic validation -/

theorem filterMap_coerce_map_num (feats : List PyNum) :
    List.filterMap (coerceFloat ∘ JsonValue.num) feats = feats := by
  induction feats with
  | nil => rfl
  | cons x xs ih => simp [coerceFloat, Function.comp, ih]

theorem all_coerce_map_num (feats : List PyNum) :
    (feats.map JsonValue.num).all (fun x => (coerceFloat x).isSome) = true := by
  induction feats with
  | nil => rfl
  | cons x xs ih => simp [coerceFloat, ih]

theorem pydanticValidate_num_list (feats : List PyNum) :
    pydanticValidate [("features", .arr (feats.map JsonValue.num))] = .ok feats := by
  unfold pydanticValidate lookupLast
  simp [all_coerce_map_num, filterMap_coerce_map_num]

/-- A concrete well-formed classifier used by the witnesses. -/
def cClf : Classifier :=
  { predictCls := fun _ => 1, predictProba := fun _ => (1/4, 3/4) }

theorem cClf_wf : cClf.WF := by
  intro x
  refine ⟨Or.inr rfl, by norm_num [cClf], by norm_num [cClf], by norm_num [cClf]⟩

/-- A concrete scaler (the identity transform) used by the witnesses. -/
def cScaler : Scaler := { transform := fun x => x }

def cMeta : Metadata := { accuracy := some (9/10), feature_count := some 30 }

/-- A service whose artifacts loaded successfully. -/
def stLoaded : ServiceState :=
  { model_loaded := true, model_metadata := cMeta, scaler := cScaler, model := cClf }

/-- A service whose artifact load failed at startup. -/
def stDegraded : ServiceState :=
  { model_loaded := false, model_metadata := emptyMetadata, scaler := cScaler,
    model := cClf }

/-- A well-shaped feature vector of length 30. -/
def feats30 : List PyNum := List.replicate 30 (.fin 1)

/-- The canonical payload `{"features": [...]}` carrying a list of numbers. -/
def numListPayload (feats : List PyNum) : JsonValue :=
  .obj [("features", .arr (feats.map JsonValue.num))]

/-- On a loaded service, a payload carrying a numeric `features` list passes
schema validation and the outcome is decided by `validate_features`. -/
theorem predict_num_list_eq (st : ServiceState) (feats : List PyNum)
    (hl : st.model_loaded = true) :
    predict st (some (numListPayload feats)) =
      (match validate_features st feats with
       | some msg => (.mkError msg, 400)
       | none => formatResult st feats) := by
  simp [predict, numListPayload, hl, jsonTruthy, pydanticValidate_num_list]

/-- The two semantic `ValueError` messages are distinct whatever the counts. -/
theorem msg_length_ne_msg_invalid (a b : String) :
    "Se esperaban " ++ a ++ " features, recibidas " ++ b ≠
      "Features contienen valores inválidos" := by
  intro heq
  have h := congrArg String.data heq
  simp only [String.data_append, List.cons_append, List.cons.injEq] at h
  exact absurd h.1 (by decide)

/-! ### Claim theorems -/

/-- C1: if the artifact load failed at startup (`model_loaded = false`),
`POST /predict` answers 503 with body `{"error": "Modelo no disponible"}`
for every request body whatsoever, and `GET /` answers 503 with
`model_loaded = false` in its body. -/
theorem predict_unloaded_service_unavailable (st : ServiceState)
    (body : Option JsonValue) (h : st.model_loaded = false) :
    predict st body = (.mkError "Modelo no disponible", 503) ∧
    (health_check st).2 = 503 ∧ (health_check st).1.model_loaded = false := by
  refine ⟨?_, ?_, ?_⟩ <;> simp [predict, health_check, h]

/-- C1 witness: the degraded service at a concrete valid-looking payload. -/
theorem predict_unloaded_service_unavailable_witness :
    stDegraded.model_loaded = false ∧
    (predict stDegraded (some (numListPayload feats30)) =
        (.mkError "Modelo no disponible", 503) ∧
      (health_check stDegraded).2 = 503 ∧
      (health_check stDegraded).1.model_loaded = false) :=
  ⟨by decide,
   predict_unloaded_service_unavailable stDegraded (some (numListPayload feats30))
     (by decide)⟩

/-- C2: on a loaded service, a feature vector of the expected length with
only finite values gets a 200 response whose `prediction_numeric` is 0 or 1
and whose two confidence values lie in `[0,1]` and are exact multiples of
`1/10000` (rounded to 4 decimal places). -/
theorem predict_valid_vector_ok (st : ServiceState) (feats : List PyNum)
    (hl : st.model_loaded = true) (hwf : st.model.WF)
    (hlen : feats.length = st.model_metadata.feature_count.getD 30)
    (hfin : ∀ x ∈ feats, x.isFinite = true) :
    ∃ (pred : String) (cb cm : ℚ) (n : ℤ),
      predict st (some (numListPayload feats)) = (.result pred cb cm n, 200) ∧
      (n = 0 ∨ n = 1) ∧
      0 ≤ cb ∧ cb ≤ 1 ∧ 0 ≤ cm ∧ cm ≤ 1 ∧
      (∃ k : ℤ, cb = (k : ℚ) / 10000) ∧ (∃ k : ℤ, cm = (k : ℚ) / 10000) := by
  have hv : validate_features st feats = none := by
    unfold validate_features
    have hany : feats.any (fun x => !x.isFinite) = false := by
      rw [List.any_eq_false]
      intro x hx
      simp [hfin x hx]
    simp [hlen, hany]
  set x := st.scaler.transform (feats.map PyNum.toRat) with hx
  obtain ⟨hcls, hp1, hp2, hsum⟩ := hwf x
  refine ⟨if st.model.predictCls x = 1 then "Maligno" else "Benigno",
    round4 (st.model.predictProba x).1, round4 (st.model.predictProba x).2,
    st.model.predictCls x, ?_, hcls,
    round4_nonneg _ hp1, round4_le_one _ (by linarith),
    round4_nonneg _ hp2, round4_le_one _ (by linarith),
    round4_four_decimals _, round4_four_decimals _⟩
  rw [predict_num_list_eq st feats hl, hv]
  rfl

/-- C2 witness: the loaded service at a concrete 30-element finite vector. -/
theorem predict_valid_vector_ok_witness :
    stLoaded.model_loaded = true ∧
    feats30.length = stLoaded.model_metadata.feature_count.getD 30 ∧
    (∃ (pred : String) (cb cm : ℚ) (n : ℤ),
      predict stLoaded (some (numListPayload feats30)) =
        (.result pred cb cm n, 200) ∧
      (n = 0 ∨ n = 1) ∧
      0 ≤ cb ∧ cb ≤ 1 ∧ 0 ≤ cm ∧ cm ≤ 1 ∧
      (∃ k : ℤ, cb = (k : ℚ) / 10000) ∧ (∃ k : ℤ, cm = (k : ℚ) / 10000)) :=
  ⟨by decide, by decide,
   predict_valid_vector_ok stLoaded feats30 (by decide) cClf_wf (by decide)
     (by decide)⟩

/-- Inversion: a `result`-shaped response can only come from the success
branch, so its label and numeric fields are the formatter's. -/
theorem predict_result_inversion (st : ServiceState) (body : Option JsonValue)
    (pred : String) (cb cm : ℚ) (n : ℤ) (code : Nat)
    (h : predict st body = (.result pred cb cm n, code)) :
    ∃ x : List ℚ, n = st.model.predictCls x ∧
      pred = (if st.model.predictCls x = 1 then "Maligno" else "Benigno") := by
  unfold predict at h
  split at h
  · exact absurd h (by simp)
  · split at h
    · exact absurd h (by simp)
    · split at h
      · exact absurd h (by simp)
      · split at h
        · split at h
          · exact absurd h (by simp)
          · split at h
            · exact absurd h (by simp)
            · unfold formatResult at h
              simp only [Prod.mk.injEq, RespBody.result.injEq] at h
              obtain ⟨⟨hpred, -, -, hn⟩, -⟩ := h
              exact ⟨_, hn.symm, hpred.symm⟩
        · exact absurd h (by simp)

/-- C3: in every 200 response of `POST /predict`, the `prediction` string is
"Maligno" iff `prediction_numeric = 1` and "Benigno" iff
`prediction_numeric = 0`. -/
theorem prediction_label_iff_numeric (st : ServiceState)
    (body : Option JsonValue) (pred : String) (cb cm : ℚ) (n : ℤ)
    (hwf : st.model.WF)
    (h : predict st body = (.result pred cb cm n, 200)) :
    (pred = "Maligno" ↔ n = 1) ∧ (pred = "Benigno" ↔ n = 0) := by
  obtain ⟨x, hn, hpred⟩ := predict_result_inversion st body pred cb cm n 200 h
  rcases (hwf x).1 with h0 | h1
  · simp [hpred, hn, h0]
  · simp [hpred, hn, h1]

/-- C3 witness: a concrete 200 response of the loaded service. -/
theorem prediction_label_iff_numeric_witness :
    predict stLoaded (some (numListPayload feats30)) =
      (.result "Maligno" (1/4) (3/4) 1, 200) ∧
    (("Maligno" : String) = "Maligno" ↔ (1 : ℤ) = 1) ∧
    (("Maligno" : String) = "Benigno" ↔ (1 : ℤ) = 0) :=
  ⟨by decide,
   prediction_label_iff_numeric stLoaded (some (numListPayload feats30))
     "Maligno" (1/4) (3/4) 1 cClf_wf (by decide)⟩

/-- C4: on a loaded service, a numeric feature list whose length differs
from the expected `feature_count` (default 30) gets a 400 response whose
error message cites the expected and the received counts. -/
theorem predict_wrong_length_400 (st : ServiceState) (feats : List PyNum)
    (hl : st.model_loaded = true)
    (hlen : feats.length ≠ st.model_metadata.feature_count.getD 30) :
    predict st (some (numListPayload feats)) =
      (.mkError ("Se esperaban " ++
          toString (st.model_metadata.feature_count.getD 30) ++
          " features, recibidas " ++ toString feats.length), 400) := by
  rw [predict_num_list_eq st feats hl]
  simp [validate_features, hlen]

/-- C4 witness: `{"features": [1,2,3]}` yields the error citing 3 received
versus the expected 30. -/
theorem predict_wrong_length_400_witness :
    stLoaded.model_loaded = true ∧
    ([PyNum.fin 1, PyNum.fin 2, PyNum.fin 3].length ≠
      stLoaded.model_metadata.feature_count.getD 30) ∧
    predict stLoaded (some (numListPayload [PyNum.fin 1, PyNum.fin 2, PyNum.fin 3])) =
      (.mkError ("Se esperaban " ++
          toString (stLoaded.model_metadata.feature_count.getD 30) ++
          " features, recibidas " ++
          toString [PyNum.fin 1, PyNum.fin 2, PyNum.fin 3].length), 400) :=
  ⟨by decide, by decide,
   predict_wrong_length_400 stLoaded [PyNum.fin 1, PyNum.fin 2, PyNum.fin 3]
     (by decide) (by decide)⟩

/-- C5: on a loaded service, a feature vector of the expected length that
contains a NaN or an infinity gets a 400 response with an error body. -/
theorem predict_nonfinite_400 (st : ServiceState) (feats : List PyNum)
    (hl : st.model_loaded = true)
    (hlen : feats.length = st.model_metadata.feature_count.getD 30)
    (hbad : ∃ x ∈ feats, x.isFinite = false) :
    predict st (some (numListPayload feats)) =
      (.mkError "Features contienen valores inválidos", 400) := by
  rw [predict_num_list_eq st feats hl]
  obtain ⟨x, hx, hxf⟩ := hbad
  have hany : feats.any (fun x => !x.isFinite) = true :=
    List.any_eq_true.mpr ⟨x, hx, by simp [hxf]⟩
  simp [validate_features, hlen, hany]

/-- C5 witness: 29 finite values followed by a NaN. -/
theorem predict_nonfinite_400_witness :
    ((List.replicate 29 (PyNum.fin 1) ++ [PyNum.nan]).length =
      stLoaded.model_metadata.feature_count.getD 30) ∧
    predict stLoaded (some (numListPayload (List.replicate 29 (PyNum.fin 1) ++ [PyNum.nan]))) =
      (.mkError "Features contienen valores inválidos", 400) :=
  ⟨by decide,
   predict_nonfinite_400 stLoaded (List.replicate 29 (PyNum.fin 1) ++ [PyNum.nan])
     (by decide) (by decide) ⟨PyNum.nan, by decide, rfl⟩⟩

/-- C7: on a loaded service, a missing or unparseable request body gets a
400 response whose body is of the shape `{"error": <string>}`. -/
theorem predict_missing_body_400 (st : ServiceState)
    (hl : st.model_loaded = true) :
    predict st none = (.mkError "No se proporcionaron datos JSON", 400) := by
  simp [predict, hl]

/-- C7 witness: the loaded service with no parseable body. -/
theorem predict_missing_body_400_witness :
    stLoaded.model_loaded = true ∧
    predict stLoaded none = (.mkError "No se proporcionaron datos JSON", 400) :=
  ⟨by decide, predict_missing_body_400 stLoaded (by decide)⟩

/-- C9: the length check runs before the finiteness check — a numeric list
of wrong length that also contains non-finite values gets the
length-mismatch message, which is never the invalid-values message. -/
theorem predict_length_checked_before_finiteness (st : ServiceState)
    (feats : List PyNum) (hl : st.model_loaded = true)
    (hlen : feats.length ≠ st.model_metadata.feature_count.getD 30)
    (_hbad : ∃ x ∈ feats, x.isFinite = false) :
    predict st (some (numListPayload feats)) =
      (.mkError ("Se esperaban " ++
          toString (st.model_metadata.feature_count.getD 30) ++
          " features, recibidas " ++ toString feats.length), 400) ∧
    ("Se esperaban " ++ toString (st.model_metadata.feature_count.getD 30) ++
        " features, recibidas " ++ toString feats.length) ≠
      "Features contienen valores inválidos" := by
  refine ⟨?_, msg_length_ne_msg_invalid _ _⟩
  rw [predict_num_list_eq st feats hl]
  simp [validate_features, hlen]

/-- C9 witness: the single-element list `[NaN]` (wrong length and
non-finite) yields the length message. -/
theorem predict_length_checked_before_finiteness_witness :
    ([PyNum.nan].length ≠ stLoaded.model_metadata.feature_count.getD 30) ∧
    (predict stLoaded (some (numListPayload [PyNum.nan])) =
      (.mkError ("Se esperaban " ++
          toString (stLoaded.model_metadata.feature_count.getD 30) ++
          " features, recibidas " ++ toString [PyNum.nan].length), 400) ∧
    ("Se esperaban " ++ toString (stLoaded.model_metadata.feature_count.getD 30) ++
        " features, recibidas " ++ toString [PyNum.nan].length) ≠
      "Features contienen valores inválidos") :=
  ⟨by decide,
   predict_length_checked_before_finiteness stLoaded [PyNum.nan] (by decide)
     (by decide) ⟨PyNum.nan, by decide, rfl⟩⟩

/-- C10: on a loaded service, a body parsing to a falsy JSON value (such as
the empty object `{}`) takes the missing-data branch: 400 with
`{"error": "No se proporcionaron datos JSON"}`, not the 422 schema branch. -/
theorem predict_falsy_json_400 (st : ServiceState) (j : JsonValue)
    (hl : st.model_loaded = true) (hfalsy : jsonTruthy j = false) :
    predict st (some j) = (.mkError "No se proporcionaron datos JSON", 400) := by
  simp [predict, hl, hfalsy]

/-- C10 witness: the empty object `{}`. -/
theorem predict_falsy_json_400_witness :
    jsonTruthy (.obj []) = false ∧
    predict stLoaded (some (.obj [])) =
      (.mkError "No se proporcionaron datos JSON", 400) :=
  ⟨by decide, predict_falsy_json_400 stLoaded (.obj []) (by decide) (by decide)⟩

/-- C8 (amended): the artifact load returns `true` iff the classifier and
the scaler deserialize successfully and any metadata file that is present
parses; a missing metadata file does not fail the load and leaves the
metadata map empty; the load is a total function, so no exception reaches
its caller in any outcome. -/
theorem load_model_artifacts_spec (env : ArtifactEnv) :
    ((load_model_artifacts env).loaded = true ↔
      (env.modelFile ≠ none ∧ env.scalerFile ≠ none ∧
        env.metadataFile ≠ some none)) ∧
    (env.metadataFile = none →
      (load_model_artifacts env).model_metadata = emptyMetadata) := by
  rcases env with ⟨m, s, md⟩
  constructor
  · rcases m with _ | m <;> rcases s with _ | s <;>
      rcases md with _ | (_ | md) <;> simp [load_model_artifacts]
  · intro hmd
    subst hmd
    rcases m with _ | m <;> rcases s with _ | s <;> simp [load_model_artifacts]

/-- C8 witness: both binary artifacts deserialize and the metadata file is
absent. -/
theorem load_model_artifacts_spec_witness :
    (((load_model_artifacts ⟨some cClf, some cScaler, none⟩).loaded = true ↔
      ((some cClf : Option Classifier) ≠ none ∧
        (some cScaler : Option Scaler) ≠ none ∧
        (none : Option (Option Metadata)) ≠ some none)) ∧
    ((none : Option (Option Metadata)) = none →
      (load_model_artifacts ⟨some cClf, some cScaler, none⟩).model_metadata =
        emptyMetadata)) :=
  load_model_artifacts_spec ⟨some cClf, some cScaler, none⟩

/-- C8 counterexample: with classifier and scaler both deserialising but the
metadata file present and unparseable, the load returns `false`, refuting
the claim's "returns true iff both the classifier and the scaler files
deserialize successfully". -/
theorem load_model_artifacts_claim_counterexample :
    ¬ ((load_model_artifacts ⟨some cClf, some cScaler, some none⟩).loaded = true ↔
      ((some cClf : Option Classifier) ≠ none ∧
        (some cScaler : Option Scaler) ≠ none)) := by
  intro hiff
  have hload := hiff.mpr ⟨Option.some_ne_none _, Option.some_ne_none _⟩
  have hfalse : (load_model_artifacts
      ⟨some cClf, some cScaler, some none⟩).loaded = false := rfl
  rw [hfalse] at hload
  exact Bool.false_ne_true hload
